import Mathlib

/-!
Shallow embedding of the `googlecalendar` Terraform provider's event
resource (`googlecalendar/resource_event.go`), covering the field-mapping
functions `buildEvent` and `readEvent`, the pure helpers
`boolToTransparency`, `transparencyToBool` and Go's `path.Base`, and the
remote-call structure of the Create / Update / Delete lifecycle
operations.  Terraform framework values (`types.String`, `types.Bool`,
`types.List`, ...) are tri-state: null, unknown, or a known value; this
is modelled by `TF`.  Go pointer fields of the calendar API structs are
modelled by `Option`, Go slices by `List`, Go string maps by association
lists, and Go zero values by explicit empty records.
-/

namespace GCal

/-- Tri-state Terraform framework value: null, unknown, or a known value
(mirrors `types.String`, `types.Bool`, `types.List`, `types.Map`,
`types.Set` from the plugin framework). -/
inductive TF (α : Type) where
  | null
  | unknown
  | value (a : α)
deriving Repr, DecidableEq

/-- Mirrors `types.String.ValueString()`: the known value, or `""` when
null or unknown. -/
def TF.valueString : TF String → String
  | .value s => s
  | _ => ""

/-- Mirrors `types.Bool.ValueBool()`: the known value, or `false` when
null or unknown. -/
def TF.valueBool : TF Bool → Bool
  | .value b => b
  | _ => false

/-- Mirrors `calendar.EventDateTime` (the fields used by this provider). -/
structure EventDateTime where
  DateTime : String
  TimeZone : String
deriving Repr, DecidableEq

/-- Mirrors `calendar.ConferenceSolutionKey`.  The Go field is named
`Type`, which is a Lean keyword, hence `KeyType` here. -/
structure ConferenceSolutionKey where
  KeyType : String
deriving Repr, DecidableEq

/-- Mirrors `calendar.ConferenceSolution` (pointer field `Key`). -/
structure ConferenceSolution where
  Key : Option ConferenceSolutionKey
deriving Repr, DecidableEq

/-- Mirrors `calendar.EntryPoint` (the fields used by this provider). -/
structure EntryPoint where
  EntryPointType : String
  Label : String
  Uri : String
deriving Repr, DecidableEq

/-- Mirrors `calendar.ConferenceData` (the fields used by this provider). -/
structure ConferenceData where
  ConferenceSolution : Option ConferenceSolution
  EntryPoints : List EntryPoint
deriving Repr, DecidableEq

/-- Mirrors `calendar.EventAttendee`.  Besides `Email` and `Optional`
(the two fields this provider manages), a representative set of the
remote-managed fields is included so that preservation of fields the
provider does not model can be stated; the remaining fields of the Go
struct behave identically under the wholesale record reuse in
`buildEvent`. -/
structure EventAttendee where
  Email : String
  Optional : Bool
  ResponseStatus : String
  DisplayName : String
  Comment : String
  AdditionalGuests : Nat
  Id : String
  Organizer : Bool
  Resource : Bool
  Self : Bool
deriving Repr, DecidableEq

/-- Mirrors `calendar.EventAttachment` (the fields used by this provider). -/
structure EventAttachment where
  FileUrl : String
  MimeType : String
  Title : String
deriving Repr, DecidableEq

/-- Mirrors `calendar.Event` (the fields used by this provider).  Pointer
fields (`GuestsCanInviteOthers`, `GuestsCanSeeOtherGuests`, `Start`,
`End`, `ConferenceData`) are `Option`; plain Go fields keep their zero
values. -/
structure Event where
  Summary : String
  Location : String
  Description : String
  GuestsCanInviteOthers : Option Bool
  GuestsCanModify : Bool
  GuestsCanSeeOtherGuests : Option Bool
  Transparency : String
  Visibility : String
  Start : Option EventDateTime
  End : Option EventDateTime
  Recurrence : List String
  ConferenceData : Option ConferenceData
  Attendees : List EventAttendee
  Attachments : List EventAttachment
  Id : String
  HtmlLink : String
deriving Repr, DecidableEq

/-- The Go zero value of `calendar.EventAttendee`. -/
def emptyEventAttendee : EventAttendee :=
  { Email := "", Optional := false, ResponseStatus := "", DisplayName := ""
    Comment := "", AdditionalGuests := 0, Id := "", Organizer := false
    Resource := false, Self := false }

/-- The Go zero value `&calendar.Event{}` passed to `buildEvent` by
`Create`. -/
def emptyEvent : Event :=
  { Summary := "", Location := "", Description := ""
    GuestsCanInviteOthers := none, GuestsCanModify := false
    GuestsCanSeeOtherGuests := none, Transparency := "", Visibility := ""
    Start := none, End := none, Recurrence := [], ConferenceData := none
    Attendees := [], Attachments := [], Id := "", HtmlLink := "" }

/-- Mirrors `attendeeModel` (nested `attendee` block of the resource
model). -/
structure attendeeModel where
  Email : TF String
  Optional : TF Bool
deriving Repr, DecidableEq

/-- Mirrors `attachmentModel` (nested `attachment` block of the resource
model). -/
structure attachmentModel where
  FileURL : TF String
  MimeType : TF String
  Title : TF String
deriving Repr, DecidableEq

/-- Mirrors `eventResourceModel`, the Terraform resource data model.  The
`conference` map attribute is modelled as an association list of
key/value pairs. -/
structure eventResourceModel where
  ID : TF String
  Summary : TF String
  Location : TF String
  Description : TF String
  Start : TF String
  End : TF String
  Timezone : TF String
  GuestsCanInviteOthers : TF Bool
  GuestsCanModify : TF Bool
  GuestsCanSeeOtherGuests : TF Bool
  ShowAsAvailable : TF Bool
  SendNotifications : TF Bool
  Visibility : TF String
  Recurrence : TF (List String)
  Conference : TF (List (String × String))
  Attendees : TF (List attendeeModel)
  Attachments : TF (List attachmentModel)
  HTMLLink : TF String
deriving Repr, DecidableEq

/-- A resource model with every attribute null (used as a neutral base
for concrete instances). -/
def emptyModel : eventResourceModel :=
  { ID := .null, Summary := .null, Location := .null, Description := .null
    Start := .null, End := .null, Timezone := .null
    GuestsCanInviteOthers := .null, GuestsCanModify := .null
    GuestsCanSeeOtherGuests := .null, ShowAsAvailable := .null
    SendNotifications := .null, Visibility := .null, Recurrence := .null
    Conference := .null, Attendees := .null, Attachments := .null
    HTMLLink := .null }

/-- Mirrors `boolToTransparency`: converts the "show as available"
boolean to the remote transparency string. -/
def boolToTransparency (showAsAvailable : Bool) : String :=
  if !showAsAvailable then "opaque" else "transparent"

/-- Mirrors `transparencyToBool`: a transparency string is "show as
available" exactly when it equals "transparent". -/
def transparencyToBool (s : String) : Bool :=
  s == "transparent"

/-- Mirrors Go's `path.Base`: returns the last element of the path after
stripping trailing slashes; `"."` for the empty path, `"/"` for a path
consisting only of slashes. -/
def pathBase (p : String) : String :=
  if p = "" then "." else
  let stripped : List Char := (p.toList.reverse.dropWhile (fun c => c == '/')).reverse
  if stripped = [] then "/" else
  String.mk ((stripped.reverse.takeWhile (fun c => c != '/')).reverse)

/-- The attendee rebuild step of `buildEvent` for one desired attendee:
a fresh record carrying the desired email is the default; if an attendee
with the same email already exists on the current remote event, that
existing record is reused wholesale (the loop takes the first match);
finally the provider-managed `Optional` flag is overwritten. -/
def buildAttendee (attendeesExisting : List EventAttendee)
    (att : attendeeModel) : EventAttendee :=
  let fresh : EventAttendee := { emptyEventAttendee with Email := att.Email.valueString }
  let base : EventAttendee :=
    match attendeesExisting.find? (fun ea => ea.Email == fresh.Email) with
    | some ea => ea
    | none => fresh
  { base with Optional := att.Optional.valueBool }

/-- Mirrors `buildEvent`: builds a `calendar.Event` from the Terraform
model, mutating the passed-in event (here: a functional record update).
The Go function also returns diagnostics, which can only be produced by
`ElementsAs` on unknown collection values; on the recurrence branch,
whose guard admits an unknown list, that failure leaves the local slice
nil, which is what the unknown case records here. -/
def buildEvent (model : eventResourceModel) (event : Event) : Event :=
  { event with
    Summary := model.Summary.valueString
    Location := model.Location.valueString
    Description := model.Description.valueString
    GuestsCanInviteOthers := some model.GuestsCanInviteOthers.valueBool
    GuestsCanModify := model.GuestsCanModify.valueBool
    GuestsCanSeeOtherGuests := some model.GuestsCanSeeOtherGuests.valueBool
    Transparency := boolToTransparency model.ShowAsAvailable.valueBool
    Visibility := model.Visibility.valueString
    Start := some { DateTime := model.Start.valueString
                    TimeZone := model.Timezone.valueString }
    End := some { DateTime := model.End.valueString
                  TimeZone := model.Timezone.valueString }
    Recurrence :=
      match model.Recurrence with
      | .null => event.Recurrence
      | .unknown => []
      | .value l => l
    ConferenceData :=
      match model.Conference with
      | .value conf =>
        match conf.lookup "google_meet_id" with
        | some googleMeetID =>
          if googleMeetID ≠ "" then
            some { ConferenceSolution :=
                     some { Key := some { KeyType := "hangoutsMeet" } }
                   EntryPoints :=
                     [{ EntryPointType := "video"
                        Label := "meet.google.com/" ++ googleMeetID
                        Uri := "https://meet.google.com/" ++ googleMeetID }] }
          else event.ConferenceData
        | none => event.ConferenceData
      | _ => event.ConferenceData
    Attendees :=
      match model.Attendees with
      | .value atts => atts.map (buildAttendee event.Attendees)
      | _ => event.Attendees
    Attachments :=
      match model.Attachments with
      | .value atts =>
        atts.map (fun att =>
          { FileUrl := att.FileURL.valueString
            MimeType := att.MimeType.valueString
            Title := att.Title.valueString })
      | _ => event.Attachments }

/-- The attendee element conversion inside `readEvent`. -/
def readAttendee (att : EventAttendee) : attendeeModel :=
  { Email := .value att.Email, Optional := .value att.Optional }

/-- The attachment element conversion inside `readEvent`; an empty
`Title` is stored as null. -/
def readAttachment (att : EventAttachment) : attachmentModel :=
  { FileURL := .value att.FileUrl
    MimeType := .value att.MimeType
    Title := if att.Title ≠ "" then .value att.Title else .null }

/-- Mirrors `readEvent`: overwrites the Terraform model from a
`calendar.Event`.  The second component is the list of warnings the
function logs; the Go function body contains no logging or diagnostic
statement, so that list is always empty. -/
def readEvent (model : eventResourceModel) (event : Event) :
    eventResourceModel × List String :=
  ({ model with
     Summary := .value event.Summary
     Location := if event.Location ≠ "" then .value event.Location else .null
     Description :=
       if event.Description ≠ "" then .value event.Description else .null
     Start := match event.Start with
       | some s => .value s.DateTime
       | none => model.Start
     Timezone := match event.Start with
       | some s => .value s.TimeZone
       | none => model.Timezone
     End := match event.End with
       | some e => .value e.DateTime
       | none => model.End
     GuestsCanInviteOthers := match event.GuestsCanInviteOthers with
       | some b => .value b
       | none => model.GuestsCanInviteOthers
     GuestsCanModify := .value event.GuestsCanModify
     GuestsCanSeeOtherGuests := match event.GuestsCanSeeOtherGuests with
       | some b => .value b
       | none => model.GuestsCanSeeOtherGuests
     ShowAsAvailable := .value (transparencyToBool event.Transparency)
     Visibility := .value event.Visibility
     Recurrence :=
       if event.Recurrence.length > 0 then .value event.Recurrence else .null
     Conference := match event.ConferenceData with
       | some cd =>
         match cd.EntryPoints with
         | ep :: _ => .value [("google_meet_id", pathBase ep.Uri)]
         | [] => .null
       | none => .null
     Attendees :=
       if event.Attendees.length > 0 then
         .value (event.Attendees.map readAttendee)
       else .null
     Attachments :=
       if event.Attachments.length > 0 then
         .value (event.Attachments.map readAttachment)
       else .null
     HTMLLink := .value event.HtmlLink }, [])

/-- The query options the provider attaches to the `Insert` and `Update`
calls: `SupportsAttachments`, `ConferenceDataVersion`,
`SendNotifications`, `MaxAttendees`. -/
structure CallOptions where
  supportsAttachments : Bool
  conferenceDataVersion : Nat
  sendNotifications : Bool
  maxAttendees : Nat
deriving Repr, DecidableEq

/-- One remote call issued against the calendar service, with the
calendar id, the payload and the query options it carries. -/
inductive ApiCall where
  | insert (calendarId : String) (event : Event) (opts : CallOptions)
  | get (calendarId : String) (eventId : String)
  | update (calendarId : String) (eventId : String) (event : Event)
      (opts : CallOptions)
  | delete (calendarId : String) (eventId : String)
      (sendNotifications : Bool)
deriving DecidableEq

/-- Mirrors the `Create` lifecycle operation after the plan has been
decoded: build the event from the plan and an empty base event, issue
one `Insert` call (its outcome is the injected `insertResult`), and on
success adopt the returned id and repopulate the plan via `readEvent`.
The second component is the trace of remote calls issued. -/
def createOp (plan : eventResourceModel) (insertResult : Except String Event) :
    Except String eventResourceModel × List ApiCall :=
  let event := buildEvent plan emptyEvent
  let sendNotifications := plan.SendNotifications.valueBool
  let call := ApiCall.insert "primary" event
    { supportsAttachments := true, conferenceDataVersion := 1
      sendNotifications := sendNotifications, maxAttendees := 25 }
  match insertResult with
  | .error err => (.error ("Could not create event: " ++ err), [call])
  | .ok eventAPI =>
    let plan := { plan with ID := .value eventAPI.Id }
    (.ok (readEvent plan eventAPI).1, [call])

/-- Mirrors the `Update` lifecycle operation after the plan has been
decoded: issue one `Get` call for the current remote event, rebuild it
from the plan, issue one `Update` call with the same options as
`Create`, and on success repopulate the plan via `readEvent`.  The
second component is the trace of remote calls issued. -/
def updateOp (plan : eventResourceModel)
    (getResult updateResult : Except String Event) :
    Except String eventResourceModel × List ApiCall :=
  let getCall := ApiCall.get "primary" plan.ID.valueString
  match getResult with
  | .error err =>
    (.error ("Could not read event " ++ plan.ID.valueString ++ ": " ++ err),
     [getCall])
  | .ok current =>
    let event := buildEvent plan current
    let sendNotifications := plan.SendNotifications.valueBool
    let call := ApiCall.update "primary" plan.ID.valueString event
      { supportsAttachments := true, conferenceDataVersion := 1
        sendNotifications := sendNotifications, maxAttendees := 25 }
    match updateResult with
    | .error err =>
      (.error ("Could not update event " ++ plan.ID.valueString ++ ": " ++ err),
       [getCall, call])
    | .ok eventAPI => (.ok (readEvent plan eventAPI).1, [getCall, call])

/-- Mirrors the `Delete` lifecycle operation after the prior state has
been decoded: issue one `Delete` call carrying the notification flag
from prior state.  A `Delete` handler that returns without error makes
the host remove the resource from state (first component `none`: local
identity cleared); on error the handler returns early with a diagnostic
(second component) and the prior state is untouched (first component is
the unmodified prior state).  The third component is the trace of remote
calls issued. -/
def deleteOp (state : eventResourceModel) (deleteResult : Option String) :
    Option eventResourceModel × Option String × List ApiCall :=
  let call := ApiCall.delete "primary" state.ID.valueString
    state.SendNotifications.valueBool
  match deleteResult with
  | some err =>
    (some state,
     some ("Could not delete event " ++ state.ID.valueString ++ ": " ++ err),
     [call])
  | none => (none, none, [call])

/-! Concrete instances used by witnesses. -/

/-- A remote attendee record carrying remote-managed fields this
provider does not model (`ResponseStatus`, `AdditionalGuests`). -/
def aliceRemote : EventAttendee :=
  { emptyEventAttendee with
    Email := "alice@x", ResponseStatus := "accepted", AdditionalGuests := 5 }

/-- A remote attendee whose email appears in no desired configuration. -/
def staleRemote : EventAttendee := { emptyEventAttendee with Email := "stale@x" }

/-- Desired attendee matching `aliceRemote` by email, with
`optional = true`. -/
def aliceDesired : attendeeModel := { Email := .value "alice@x", Optional := .value true }

/-- Desired attendee with no matching remote record. -/
def bobDesired : attendeeModel := { Email := .value "bob@x", Optional := .value false }

/-- A remote event whose current attendee list is `[aliceRemote]`. -/
def remoteEventA : Event := { emptyEvent with Attendees := [aliceRemote] }

/-- A remote event carrying one matching and one stale attendee. -/
def remoteEventB : Event := { emptyEvent with Attendees := [aliceRemote, staleRemote] }

/-- A configuration whose desired attendee set is
`[aliceDesired, bobDesired]`. -/
def attendeeModelA : eventResourceModel :=
  { emptyModel with Attendees := .value [aliceDesired, bobDesired] }

/-- A configuration carrying a conference map with meet id
`abc-defg-hij`. -/
def conferenceModel : eventResourceModel :=
  { emptyModel with Conference := .value [("google_meet_id", "abc-defg-hij")] }

/-- A fully populated configuration (every schema-required or defaulted
attribute known). -/
def exampleModel : eventResourceModel :=
  { emptyModel with
    Summary := .value "standup"
    Location := .value "HQ"
    Start := .value "2025-01-06T09:00:00-08:00"
    End := .value "2025-01-06T09:15:00-08:00"
    Timezone := .value "America/Los_Angeles"
    GuestsCanInviteOthers := .value true
    GuestsCanModify := .value true
    GuestsCanSeeOtherGuests := .value true
    ShowAsAvailable := .value false
    SendNotifications := .value true
    Visibility := .value ""
    Recurrence := .value ["RRULE:FREQ=WEEKLY"] }

/-- The `exampleModel` configuration with an explicitly empty (but not
null) recurrence list. -/
def emptyRecurrenceModel : eventResourceModel :=
  { exampleModel with Recurrence := .value [] }

/-- A remote event with one attachment whose title is empty. -/
def attachEvent : Event :=
  { emptyEvent with
    Description := "notes"
    Attachments := [{ FileUrl := "https://file.example/a", MimeType := "application/pdf", Title := "" }] }

/-! Helper lemmas shared between claim proofs. -/

/-- Rebuilding an attendee never changes the email: both the fresh and
the reused base record carry the desired attendee's email. -/
lemma buildAttendee_email (ex : List EventAttendee) (att : attendeeModel) :
    (buildAttendee ex att).Email = att.Email.valueString := by
  unfold buildAttendee
  dsimp only
  split
  next ea heq => simpa using List.find?_some heq
  next => rfl

/-- The two transparency conversions cancel on booleans. -/
lemma transparency_round (b : Bool) :
    transparencyToBool (boolToTransparency b) = b := by
  cases b <;> rfl

/-! Theorems for the claims. -/

/-- Claim C4: the transparency mappings are mutually inverse on booleans
and on the two recognized strings, and every unrecognized string maps to
`false` rather than an error. -/
theorem C4_transparency_inverse :
    (∀ b : Bool, transparencyToBool (boolToTransparency b) = b) ∧
    (∀ s : String, s = "opaque" ∨ s = "transparent" →
      boolToTransparency (transparencyToBool s) = s) ∧
    (∀ s : String, s ≠ "opaque" → s ≠ "transparent" →
      transparencyToBool s = false) := by
  refine ⟨transparency_round, ?_, ?_⟩
  · rintro s (rfl | rfl) <;> rfl
  · intro s _ h2
    simp [transparencyToBool, h2]

/-- Witness for C4 at the concrete strings `"opaque"` and `"busyish"`. -/
theorem C4_transparency_inverse_witness :
    boolToTransparency (transparencyToBool "opaque") = "opaque" ∧
    transparencyToBool "busyish" = false :=
  ⟨C4_transparency_inverse.2.1 "opaque" (Or.inl rfl),
   C4_transparency_inverse.2.2 "busyish" (by decide) (by decide)⟩

/-- Claim C9: `buildEvent` gives the built event's start and end the
same time zone, both taken from the model's single `timezone`
attribute. -/
theorem C9_shared_timezone (model : eventResourceModel) (event : Event) :
    (buildEvent model event).Start =
      some { DateTime := model.Start.valueString
             TimeZone := model.Timezone.valueString } ∧
    (buildEvent model event).End =
      some { DateTime := model.End.valueString
             TimeZone := model.Timezone.valueString } ∧
    ((buildEvent model event).Start).map EventDateTime.TimeZone
      = ((buildEvent model event).End).map EventDateTime.TimeZone :=
  ⟨rfl, rfl, rfl⟩

/-- Claim C7: `Create` issues exactly one insert call and `Update`
(after a successful re-read) exactly one update call, each with
attachments supported, conference-data version 1, the configured
notification flag, and the attendee cap 25 — the same options for
both. -/
theorem C7_call_options (plan : eventResourceModel)
    (insertResult updateResult : Except String Event) (current : Event) :
    (createOp plan insertResult).2 =
      [ApiCall.insert "primary" (buildEvent plan emptyEvent)
        { supportsAttachments := true, conferenceDataVersion := 1
          sendNotifications := plan.SendNotifications.valueBool
          maxAttendees := 25 }] ∧
    (updateOp plan (.ok current) updateResult).2 =
      [ApiCall.get "primary" plan.ID.valueString,
       ApiCall.update "primary" plan.ID.valueString (buildEvent plan current)
        { supportsAttachments := true, conferenceDataVersion := 1
          sendNotifications := plan.SendNotifications.valueBool
          maxAttendees := 25 }] := by
  constructor
  · cases insertResult <;> rfl
  · cases updateResult <;> rfl

/-- Claim C8: `Delete` issues exactly one delete call honoring the
prior-state notification flag; on success local identity is cleared and
no error is reported; on failure an error is reported and the prior
state is returned completely unchanged. -/
theorem C8_delete_behavior (state : eventResourceModel) (err : String) :
    (deleteOp state none).2.2 =
      [ApiCall.delete "primary" state.ID.valueString
        state.SendNotifications.valueBool] ∧
    (deleteOp state (some err)).2.2 =
      [ApiCall.delete "primary" state.ID.valueString
        state.SendNotifications.valueBool] ∧
    (deleteOp state none).1 = none ∧
    (deleteOp state none).2.1 = none ∧
    (deleteOp state (some err)).1 = some state ∧
    (deleteOp state (some err)).2.1.isSome = true :=
  ⟨rfl, rfl, rfl, rfl, rfl, rfl⟩

/-- Claim C1: whenever the desired attendee set is a known value, the
rebuilt attendee list is the element-wise rebuild of the desired list,
and each desired attendee whose email matches an attendee already on the
current remote event is rebuilt as that existing record with only the
`Optional` flag overwritten, while a desired attendee with no matching
remote email is rebuilt as a fresh record carrying exactly the email and
the `Optional` flag over the zero record. -/
theorem C1_attendee_merge (model : eventResourceModel) (event : Event)
    (atts : List attendeeModel) (h : model.Attendees = TF.value atts) :
    (buildEvent model event).Attendees = atts.map (buildAttendee event.Attendees) ∧
    ∀ att : attendeeModel,
      ((∃ ea ∈ event.Attendees, ea.Email = att.Email.valueString) →
        ∃ ea ∈ event.Attendees, ea.Email = att.Email.valueString ∧
          buildAttendee event.Attendees att =
            { ea with Optional := att.Optional.valueBool }) ∧
      ((∀ ea ∈ event.Attendees, ea.Email ≠ att.Email.valueString) →
        buildAttendee event.Attendees att =
          { emptyEventAttendee with
            Email := att.Email.valueString
            Optional := att.Optional.valueBool }) := by
  constructor
  · simp [buildEvent, h]
  · intro att
    constructor
    · intro hex
      cases hfind : event.Attendees.find? (fun ea => ea.Email == att.Email.valueString) with
      | none =>
        exfalso
        obtain ⟨ea, hmem, heq⟩ := hex
        have := List.find?_eq_none.mp hfind ea hmem
        simp [heq] at this
      | some ea =>
        refine ⟨ea, List.mem_of_find?_eq_some hfind, ?_, ?_⟩
        · simpa using List.find?_some hfind
        · unfold buildAttendee
          dsimp only
          rw [hfind]
    · intro hall
      have hfind : event.Attendees.find?
          (fun ea => ea.Email == att.Email.valueString) = none := by
        apply List.find?_eq_none.mpr
        intro ea hmem
        simp [hall ea hmem]
      unfold buildAttendee
      dsimp only
      rw [hfind]

/-- Witness for C1: alice matches remotely and keeps her remote-managed
fields with only the optional flag overwritten; bob is created fresh. -/
theorem C1_attendee_merge_witness :
    (∃ ea ∈ remoteEventA.Attendees, ea.Email = "alice@x" ∧
      buildAttendee remoteEventA.Attendees aliceDesired =
        { ea with Optional := true }) ∧
    buildAttendee remoteEventA.Attendees bobDesired =
      { emptyEventAttendee with Email := "bob@x", Optional := false } := by
  have h := C1_attendee_merge attendeeModelA remoteEventA
    [aliceDesired, bobDesired] rfl
  constructor
  · exact (h.2 aliceDesired).1 ⟨aliceRemote, by decide, by decide⟩
  · exact (h.2 bobDesired).2 (by decide)

/-- Claim C10: whenever the desired attendee set is a known value, the
built attendee list has exactly one entry per desired attendee, in the
desired order, with matching emails; any current remote attendee whose
email is not desired is dropped. -/
theorem C10_desired_attendees_exact (model : eventResourceModel) (event : Event)
    (atts : List attendeeModel) (h : model.Attendees = TF.value atts) :
    ((buildEvent model event).Attendees).map EventAttendee.Email
      = atts.map (fun a => a.Email.valueString) ∧
    ((buildEvent model event).Attendees).length = atts.length ∧
    ∀ ea ∈ event.Attendees,
      ea.Email ∉ atts.map (fun a => a.Email.valueString) →
      ∀ b ∈ (buildEvent model event).Attendees, b.Email ≠ ea.Email := by
  have hA : (buildEvent model event).Attendees
      = atts.map (buildAttendee event.Attendees) := by
    simp [buildEvent, h]
  have hmap : ((buildEvent model event).Attendees).map EventAttendee.Email
      = atts.map (fun a => a.Email.valueString) := by
    rw [hA, List.map_map]
    exact List.map_congr_left (fun a _ => buildAttendee_email _ a)
  refine ⟨hmap, ?_, ?_⟩
  · rw [hA, List.length_map]
  · intro ea _ hnot b hb hEq
    apply hnot
    rw [← hmap]
    rw [← hEq]
    exact List.mem_map_of_mem _ hb

/-- Witness for C10: with desired attendees alice and bob and remote
attendees alice and stale, the built list is exactly alice then bob and
the stale attendee is dropped. -/
theorem C10_desired_attendees_exact_witness :
    ((buildEvent attendeeModelA remoteEventB).Attendees).map EventAttendee.Email
      = ["alice@x", "bob@x"] ∧
    ∀ b ∈ (buildEvent attendeeModelA remoteEventB).Attendees,
      b.Email ≠ "stale@x" := by
  have h := C10_desired_attendees_exact attendeeModelA remoteEventB
    [aliceDesired, bobDesired] rfl
  exact ⟨h.1, h.2.2 staleRemote (by decide) (by decide)⟩

/-- Counterexample for claim C5: the claim asserts a warning is logged
when an unrecognized transparency value is read back, but `readEvent`
contains no logging statement at all — on the concrete remote event with
transparency `"weirdValue"` the emitted warning list is empty (while the
value does default to busy). -/
theorem C5_counterexample :
    (readEvent emptyModel { emptyEvent with Transparency := "weirdValue" }).2
      = [] ∧
    (readEvent emptyModel { emptyEvent with Transparency := "weirdValue" }).1.ShowAsAvailable
      = TF.value false := by
  exact ⟨rfl, by decide⟩

/-- Claim C5 as amended: reading an unrecognized transparency value
defaults show-as-available to busy (`false`) and does not fail, and no
warning is emitted. -/
theorem C5_unrecognized_transparency (model : eventResourceModel) (event : Event)
    (_h1 : event.Transparency ≠ "opaque") (h2 : event.Transparency ≠ "transparent") :
    (readEvent model event).1.ShowAsAvailable = TF.value false ∧
    (readEvent model event).2 = [] := by
  constructor
  · simp [readEvent, transparencyToBool, h2]
  · rfl

/-- Witness for the amended C5 at the concrete transparency
`"tentative"`. -/
theorem C5_unrecognized_transparency_witness :
    (readEvent emptyModel { emptyEvent with Transparency := "tentative" }).1.ShowAsAvailable
      = TF.value false ∧
    (readEvent emptyModel { emptyEvent with Transparency := "tentative" }).2 = [] :=
  C5_unrecognized_transparency emptyModel
    { emptyEvent with Transparency := "tentative" } (by decide) (by decide)

/-- Claim C6: on read, the optional text fields location, description
and attachment title are stored as null exactly when the remote value is
the empty string, and as that string value otherwise. -/
theorem C6_empty_optional_strings_null (model : eventResourceModel) (event : Event) :
    ((event.Location = "" → (readEvent model event).1.Location = TF.null) ∧
     (event.Location ≠ "" →
       (readEvent model event).1.Location = TF.value event.Location)) ∧
    ((event.Description = "" → (readEvent model event).1.Description = TF.null) ∧
     (event.Description ≠ "" →
       (readEvent model event).1.Description = TF.value event.Description)) ∧
    (event.Attachments ≠ [] →
      (readEvent model event).1.Attachments =
        TF.value (event.Attachments.map readAttachment)) ∧
    ∀ a : EventAttachment,
      (a.Title = "" → (readAttachment a).Title = TF.null) ∧
      (a.Title ≠ "" → (readAttachment a).Title = TF.value a.Title) ∧
      (readAttachment a).FileURL = TF.value a.FileUrl ∧
      (readAttachment a).MimeType = TF.value a.MimeType := by
  refine ⟨⟨?_, ?_⟩, ⟨?_, ?_⟩, ?_, ?_⟩
  · intro hl; simp [readEvent, hl]
  · intro hl; simp [readEvent, hl]
  · intro hd; simp [readEvent, hd]
  · intro hd; simp [readEvent, hd]
  · intro ha
    have : 0 < event.Attachments.length := List.length_pos.mpr ha
    simp [readEvent, this]
  · intro a
    refine ⟨?_, ?_, rfl, rfl⟩
    · intro ht; simp [readAttachment, ht]
    · intro ht; simp [readAttachment, ht]

/-- Witness for C6: a remote event with empty location, non-empty
description and an attachment with empty title. -/
theorem C6_empty_optional_strings_null_witness :
    (readEvent emptyModel attachEvent).1.Location = TF.null ∧
    (readEvent emptyModel attachEvent).1.Description = TF.value "notes" ∧
    (readAttachment { FileUrl := "https://file.example/a"
                      MimeType := "application/pdf", Title := "" }).Title
      = TF.null := by
  have h := C6_empty_optional_strings_null emptyModel attachEvent
  exact ⟨h.1.1 rfl, h.2.1.2 (by decide),
    (h.2.2.2 { FileUrl := "https://file.example/a"
               MimeType := "application/pdf", Title := "" }).1 rfl⟩

/-- Claim C2: for a non-empty meet id in the conference map,
`buildEvent` synthesizes a conference object with solution type
`hangoutsMeet` and exactly one video entry point with URI
`https://meet.google.com/<id>` and label `meet.google.com/<id>`;
`readEvent` extracts the id as the final path segment of the first entry
point's URI (at `abc-defg-hij` this recovers the id exactly), and a
remote event without entry points reads back a null conference value. -/
theorem C2_conference_mapping (id : String) (hid : id ≠ "") :
    (∀ (model : eventResourceModel) (event : Event)
        (conf : List (String × String)),
      model.Conference = TF.value conf →
      conf.lookup "google_meet_id" = some id →
      (buildEvent model event).ConferenceData = some
        { ConferenceSolution := some { Key := some { KeyType := "hangoutsMeet" } }
          EntryPoints := [{ EntryPointType := "video"
                            Label := "meet.google.com/" ++ id
                            Uri := "https://meet.google.com/" ++ id }] }) ∧
    (∀ (model : eventResourceModel) (event : Event) (cd : ConferenceData)
        (ep : EntryPoint) (rest : List EntryPoint),
      event.ConferenceData = some cd → cd.EntryPoints = ep :: rest →
      (readEvent model event).1.Conference =
        TF.value [("google_meet_id", pathBase ep.Uri)]) ∧
    pathBase "https://meet.google.com/abc-defg-hij" = "abc-defg-hij" ∧
    (∀ (model : eventResourceModel) (event : Event),
      (event.ConferenceData = none ∨
        ∃ cd, event.ConferenceData = some cd ∧ cd.EntryPoints = []) →
      (readEvent model event).1.Conference = TF.null) := by
  refine ⟨?_, ?_, by decide, ?_⟩
  · intro model event conf hconf hlook
    simp [buildEvent, hconf, hlook, hid]
  · intro model event cd ep rest hcd hep
    simp [readEvent, hcd, hep]
  · rintro model event (hnone | ⟨cd, hcd, hep⟩) <;> simp [readEvent, *]

/-- Witness for C2 at the concrete meet id `abc-defg-hij`: the
synthesized conference object and the recovered id after the round
trip. -/
theorem C2_conference_mapping_witness :
    (buildEvent conferenceModel emptyEvent).ConferenceData = some
      { ConferenceSolution := some { Key := some { KeyType := "hangoutsMeet" } }
        EntryPoints := [{ EntryPointType := "video"
                          Label := "meet.google.com/abc-defg-hij"
                          Uri := "https://meet.google.com/abc-defg-hij" }] } ∧
    (readEvent emptyModel (buildEvent conferenceModel emptyEvent)).1.Conference
      = TF.value [("google_meet_id", "abc-defg-hij")] ∧
    (readEvent emptyModel emptyEvent).1.Conference = TF.null := by
  have h := C2_conference_mapping "abc-defg-hij" (by decide)
  refine ⟨h.1 conferenceModel emptyEvent
    [("google_meet_id", "abc-defg-hij")] rfl rfl, by decide,
    h.2.2.2 emptyModel emptyEvent (Or.inl rfl)⟩

/-- Counterexample for claim C3: with an explicitly empty (non-null)
recurrence list, building and reverse-mapping does not return the same
recurrence value — `buildEvent` sends the empty list and `readEvent`
stores a null in its place. -/
theorem C3_counterexample :
    (readEvent emptyModel (buildEvent emptyRecurrenceModel emptyEvent)).1.Recurrence
      ≠ emptyRecurrenceModel.Recurrence := by
  decide

/-- Claim C3 as amended: building a remote event from a configuration
and reverse-mapping it yields the same summary, location and description
(absent exactly when the built string was empty), start, end and
timezone, the three guest flags, show-as-available, visibility, and the
same recurrence list in the same order when it is null or non-empty —
but an explicitly empty recurrence list is read back as null. -/
theorem C3_build_read_round_trip (m m₀ : eventResourceModel)
    (s st en tz vis : String) (g1 g2 g3 avail : Bool)
    (hs : m.Summary = TF.value s) (hst : m.Start = TF.value st)
    (hen : m.End = TF.value en) (htz : m.Timezone = TF.value tz)
    (hvis : m.Visibility = TF.value vis)
    (hg1 : m.GuestsCanInviteOthers = TF.value g1)
    (hg2 : m.GuestsCanModify = TF.value g2)
    (hg3 : m.GuestsCanSeeOtherGuests = TF.value g3)
    (hav : m.ShowAsAvailable = TF.value avail) :
    (readEvent m₀ (buildEvent m emptyEvent)).1.Summary = TF.value s ∧
    (m.Location.valueString = "" →
      (readEvent m₀ (buildEvent m emptyEvent)).1.Location = TF.null) ∧
    (m.Location.valueString ≠ "" →
      (readEvent m₀ (buildEvent m emptyEvent)).1.Location
        = TF.value m.Location.valueString) ∧
    (m.Description.valueString = "" →
      (readEvent m₀ (buildEvent m emptyEvent)).1.Description = TF.null) ∧
    (m.Description.valueString ≠ "" →
      (readEvent m₀ (buildEvent m emptyEvent)).1.Description
        = TF.value m.Description.valueString) ∧
    (readEvent m₀ (buildEvent m emptyEvent)).1.Start = TF.value st ∧
    (readEvent m₀ (buildEvent m emptyEvent)).1.End = TF.value en ∧
    (readEvent m₀ (buildEvent m emptyEvent)).1.Timezone = TF.value tz ∧
    (readEvent m₀ (buildEvent m emptyEvent)).1.GuestsCanInviteOthers = TF.value g1 ∧
    (readEvent m₀ (buildEvent m emptyEvent)).1.GuestsCanModify = TF.value g2 ∧
    (readEvent m₀ (buildEvent m emptyEvent)).1.GuestsCanSeeOtherGuests = TF.value g3 ∧
    (readEvent m₀ (buildEvent m emptyEvent)).1.ShowAsAvailable = TF.value avail ∧
    (readEvent m₀ (buildEvent m emptyEvent)).1.Visibility = TF.value vis ∧
    (m.Recurrence = TF.null →
      (readEvent m₀ (buildEvent m emptyEvent)).1.Recurrence = TF.null) ∧
    (∀ l : List String, m.Recurrence = TF.value l → l ≠ [] →
      (readEvent m₀ (buildEvent m emptyEvent)).1.Recurrence = TF.value l) ∧
    (m.Recurrence = TF.value [] →
      (readEvent m₀ (buildEvent m emptyEvent)).1.Recurrence = TF.null) := by
  refine ⟨?_, ?_, ?_, ?_, ?_, ?_, ?_, ?_, ?_, ?_, ?_, ?_, ?_, ?_, ?_, ?_⟩
  · simp [readEvent, buildEvent, hs, TF.valueString]
  · intro hl; simp [readEvent, buildEvent, hl]
  · intro hl; simp [readEvent, buildEvent, hl]
  · intro hd; simp [readEvent, buildEvent, hd]
  · intro hd; simp [readEvent, buildEvent, hd]
  · simp [readEvent, buildEvent, hst, TF.valueString]
  · simp [readEvent, buildEvent, hen, TF.valueString]
  · simp [readEvent, buildEvent, htz, TF.valueString]
  · simp [readEvent, buildEvent, hg1, TF.valueBool]
  · simp [readEvent, buildEvent, hg2, TF.valueBool]
  · simp [readEvent, buildEvent, hg3, TF.valueBool]
  · simp [readEvent, buildEvent, hav, TF.valueBool, transparency_round]
  · simp [readEvent, buildEvent, hvis, TF.valueString]
  · intro hr; simp [readEvent, buildEvent, hr, emptyEvent]
  · intro l hr hl
    have : 0 < l.length := List.length_pos.mpr hl
    simp [readEvent, buildEvent, hr, this]
  · intro hr; simp [readEvent, buildEvent, hr]

/-- Witness for the amended C3 at a fully populated configuration. -/
theorem C3_build_read_round_trip_witness :
    (readEvent emptyModel (buildEvent exampleModel emptyEvent)).1.Summary
      = TF.value "standup" ∧
    (readEvent emptyModel (buildEvent exampleModel emptyEvent)).1.Location
      = TF.value "HQ" ∧
    (readEvent emptyModel (buildEvent exampleModel emptyEvent)).1.Description
      = TF.null ∧
    (readEvent emptyModel (buildEvent exampleModel emptyEvent)).1.Timezone
      = TF.value "America/Los_Angeles" ∧
    (readEvent emptyModel (buildEvent exampleModel emptyEvent)).1.ShowAsAvailable
      = TF.value false ∧
    (readEvent emptyModel (buildEvent exampleModel emptyEvent)).1.Recurrence
      = TF.value ["RRULE:FREQ=WEEKLY"] := by
  have h := C3_build_read_round_trip exampleModel emptyModel
    "standup" "2025-01-06T09:00:00-08:00" "2025-01-06T09:15:00-08:00"
    "America/Los_Angeles" "" true true true false
    rfl rfl rfl rfl rfl rfl rfl rfl rfl
  obtain ⟨h1, _, h3, h4, _, _, _, h8, _, _, _, h12, _, _, h15, _⟩ := h
  exact ⟨h1, h3 (by decide), h4 rfl, h8, h12,
    h15 ["RRULE:FREQ=WEEKLY"] rfl (by decide)⟩

end GCal
